import Mathlib

/-!
Memory hotplug validation (`pkg/hotplug/validations.go`)

A shallow embedding of `ValidateMemoryHotplug` and the properties of its
rule set.

Modelling conventions.

* A Go pointer is an `Option`: `nil` is `none`.
* A run-time panic (here: a nil pointer dereference) makes the function return
  `none`; a normal return of the slice `causes` is `some causes`.
* A `resource.Quantity` is seen through the two methods the validator calls:
  the exact quantity it denotes, which `Cmp` compares, and the `int64` that
  `Value()` returns for it. The two agree for a whole number of bytes within
  the `int64` range; elsewhere `Value()` rounds or overflows.
* `converter.MemoryHotplugBlockAlignmentBytes` and the `%s` rendering of a
  `resource.Quantity` are declared outside `validations.go`; they are
  parameters of the embedding. The constant is a divisor in a Go constant
  expression context, hence nonzero; `%` is Go's truncated remainder,
  `Int.tmod`.
* `ResourceList.Memory` is the method of `k8s.io/api/core/v1` that line 39
  calls; it is embedded from the library's `resource.go`.
-/

namespace Hotplug

/-! ## Data model -/

/-- Format of a `resource.Quantity` (`k8s.io/apimachinery/pkg/api/resource`). -/
inductive Format where
  | DecimalExponent
  | BinarySI
  | DecimalSI
  deriving DecidableEq, Repr

/-- A `resource.Quantity`, seen through the two methods the validator calls on
it. `bytes` is the exact quantity it denotes, in bytes, possibly a fraction and
of any magnitude; `Cmp` compares it. `asInt64` is the `int64` that `Value()`
returns for the quantity. The library makes the two agree for a whole number of
bytes within the `int64` range. For the other quantities `Value()` rounds a
fraction of a byte up and, beyond the range, wraps or returns 0 according to
the internal representation of the quantity, so that `asInt64` is a component
of its own and not computed from `bytes`. -/
structure Quantity where
  bytes : ℚ
  asInt64 : Int
  format : Format
  deriving DecidableEq, Repr

/-- The call `resource.NewQuantity(value, format)`; `value` is an `int64`, and
`Value()` returns it. -/
def NewQuantity (value : Int) (format : Format) : Quantity :=
  { bytes := value, asInt64 := value, format := format }

/-- The method `Quantity.Value()`: an `int64`. -/
def Quantity.Value (q : Quantity) : Int := q.asInt64

/-- The method `Quantity.Cmp(y)`: `-1`, `0` or `1` as `q` is below, equal to or
above `y`; an exact comparison of the quantities denoted. -/
def Quantity.Cmp (q y : Quantity) : Int :=
  if q.bytes < y.bytes then -1 else if q.bytes = y.bytes then 0 else 1

/-- The quantity is a whole number `V` of bytes and `Value()` returns `V`: the
case of every whole byte count within the `int64` range. -/
def Quantity.holdsBytes (q : Quantity) (V : Int) : Prop :=
  q.bytes = (V : ℚ) ∧ q.Value = V

/-- The type `ResourceName` of `k8s.io/api/core/v1`. -/
abbrev ResourceName := String

/-- The constant `ResourceMemory` of `k8s.io/api/core/v1`. -/
def ResourceMemory : ResourceName := "memory"

/-- The type `ResourceList` of `k8s.io/api/core/v1`: the Go map
`map[ResourceName]resource.Quantity`, as an association list. -/
abbrev ResourceList := List (ResourceName × Quantity)

/-- The method `ResourceList.Name` of `k8s.io/api/core/v1` (`resource.go`, a
dependency of `validations.go`):

```go
func (rl *ResourceList) Name(name ResourceName, defaultFormat resource.Format) *resource.Quantity {
	if val, ok := (*rl)[name]; ok {
		return &val
	}
	return &resource.Quantity{Format: defaultFormat}
}
```

The returned pointer is the address of a local in both branches, so it is never
`nil`. -/
def ResourceList.Name (rl : ResourceList) (name : ResourceName) (defaultFormat : Format) :
    Option Quantity :=
  match rl.lookup name with
  | some val => some val
  | none => some { bytes := 0, asInt64 := 0, format := defaultFormat }

/-- The method `ResourceList.Memory` of `k8s.io/api/core/v1`:
`return rl.Name(ResourceMemory, resource.BinarySI)`. -/
def ResourceList.Memory (rl : ResourceList) : Option Quantity :=
  rl.Name ResourceMemory Format.BinarySI

/-- The struct `v1.ResourceRequirements`. -/
structure ResourceRequirements where
  Requests : ResourceList
  Limits : ResourceList
  deriving DecidableEq, Repr

/-- The struct `v1.Realtime`. -/
structure Realtime where
  Mask : String
  deriving DecidableEq, Repr

/-- The struct `v1.NUMAGuestMappingPassthrough`; it has no fields. -/
structure NUMAGuestMappingPassthrough where
  deriving DecidableEq, Repr

/-- The struct `v1.NUMA`. -/
structure NUMA where
  GuestMappingPassthrough : Option NUMAGuestMappingPassthrough
  deriving DecidableEq, Repr

/-- The struct `v1.CPU`, with the fields the validator reads. -/
structure CPU where
  Realtime : Option Hotplug.Realtime
  NUMA : Option Hotplug.NUMA
  DedicatedCPUPlacement : Bool
  deriving DecidableEq, Repr

/-- The struct `v1.Hugepages`. -/
structure Hugepages where
  PageSize : String
  deriving DecidableEq, Repr

/-- The struct `v1.Memory`. -/
structure Memory where
  Hugepages : Option Hotplug.Hugepages
  Guest : Option Quantity
  MaxGuest : Option Quantity
  deriving DecidableEq, Repr

/-- The struct `v1.LaunchSecurity`; the validator only tests the pointer to it. -/
structure LaunchSecurity where
  deriving DecidableEq, Repr

/-- The struct `v1.DomainSpec`, with the fields the validator reads. -/
structure DomainSpec where
  Resources : ResourceRequirements
  CPU : Option Hotplug.CPU
  Memory : Option Hotplug.Memory
  LaunchSecurity : Option Hotplug.LaunchSecurity
  deriving DecidableEq, Repr

/-- The struct `v1.VirtualMachineInstanceSpec`, with the fields the validator
reads. -/
structure VirtualMachineInstanceSpec where
  Domain : DomainSpec
  Architecture : String
  deriving DecidableEq, Repr

/-- The type `metav1.CauseType`, a string. -/
abbrev CauseType := String

/-- The constant `metav1.CauseTypeFieldValueInvalid`. -/
def CauseTypeFieldValueInvalid : CauseType := "FieldValueInvalid"

/-- The struct `metav1.StatusCause`; its field `Type` is `Type_` here, `Type` being a
keyword. -/
structure StatusCause where
  Type_ : CauseType
  Message : String
  Field : String
  deriving DecidableEq, Repr

/-- A `field.Path` built from names only: the names from the root down. -/
abbrev Path := List String

/-- The call `field.NewPath(name, moreNames...)`. -/
def NewPath (name : String) (moreNames : List String) : Path :=
  name :: moreNames

/-- The method `Path.Child(name, moreNames...)`. -/
def Path.Child (p : Path) (name : String) (moreNames : List String) : Path :=
  p ++ name :: moreNames

/-- The method `Path.String()`: the names joined by dots. -/
def Path.String (p : Path) : String :=
  ".".intercalate p

/-! ## The validator -/

/-- The function `ValidateMemoryHotplug` of `pkg/hotplug/validations.go`.

`MemoryHotplugBlockAlignmentBytes` stands for the constant of that name in the
`converter` package and `quantityString` for the `%s` rendering of a
`*resource.Quantity`. The result is `none` when the Go code panics. -/
def ValidateMemoryHotplug (MemoryHotplugBlockAlignmentBytes : Int)
    (quantityString : Quantity → String) (vmSpec : VirtualMachineInstanceSpec) :
    Option (List StatusCause) :=
  let domain := vmSpec.Domain
  let causes : List StatusCause := []
  let field := NewPath "spec" ["template", "spec"]
  let causes :=
    if domain.Resources.Limits.Memory ≠ none then
      causes ++ [{ Type_ := CauseTypeFieldValueInvalid,
                   Message := "Configuration of Memory limits is not allowed when Memory live update is enabled",
                   Field := (field.Child "domain" ["resources"]).String }]
    else causes
  let causes :=
    match domain.CPU with
    | some cpu =>
      if cpu.Realtime ≠ none then
        causes ++ [{ Type_ := CauseTypeFieldValueInvalid,
                     Message := "Memory hotplug is not compatible with realtime VMs",
                     Field := (field.Child "domain" ["cpu", "realtime"]).String }]
      else causes
    | none => causes
  let causes :=
    match domain.CPU with
    | some cpu =>
      match cpu.NUMA with
      | some numa =>
        if numa.GuestMappingPassthrough ≠ none then
          causes ++ [{ Type_ := CauseTypeFieldValueInvalid,
                       Message := "Memory hotplug is not compatible with guest mapping passthrough",
                       Field := (field.Child "domain" ["cpu", "numa", "guestMappingPassthrough"]).String }]
        else causes
      | none => causes
    | none => causes
  let causes :=
    if domain.LaunchSecurity ≠ none then
      causes ++ [{ Type_ := CauseTypeFieldValueInvalid,
                   Message := "Memory hotplug is not compatible with encrypted VMs",
                   Field := (field.Child "domain" ["launchSecurity"]).String }]
    else causes
  let causes :=
    match domain.CPU with
    | some cpu =>
      if cpu.DedicatedCPUPlacement = true then
        causes ++ [{ Type_ := CauseTypeFieldValueInvalid,
                     Message := "Memory hotplug is not compatible with dedicated CPUs",
                     Field := (field.Child "domain" ["cpu", "dedicatedCpuPlacement"]).String }]
      else causes
    | none => causes
  let causes :=
    match domain.Memory with
    | some memory =>
      if memory.Hugepages ≠ none then
        causes ++ [{ Type_ := CauseTypeFieldValueInvalid,
                     Message := "Memory hotplug is not compatible with hugepages",
                     Field := (field.Child "domain" ["memory", "hugepages"]).String }]
      else causes
    | none => causes
  let guestNotConfigured : StatusCause :=
    { Type_ := CauseTypeFieldValueInvalid,
      Message := "Guest memory must be configured when memory hotplug is enabled",
      Field := (field.Child "domain" ["memory", "guest"]).String }
  let causes :=
    match domain.Memory with
    | none => causes ++ [guestNotConfigured]
    | some memory =>
      match memory.Guest with
      | none => causes ++ [guestNotConfigured]
      | some guest =>
        if (match memory.MaxGuest with
            | some maxGuest => decide (guest.Cmp maxGuest > 0)
            | none => false) = true then
          causes ++ [{ Type_ := CauseTypeFieldValueInvalid,
                       Message := "Guest memory is greater than the configured maxGuest memory",
                       Field := (field.Child "domain" ["memory", "guest"]).String }]
        else if Int.tmod guest.Value MemoryHotplugBlockAlignmentBytes ≠ 0 then
          let alignment := NewQuantity MemoryHotplugBlockAlignmentBytes Format.BinarySI
          causes ++ [{ Type_ := CauseTypeFieldValueInvalid,
                       Message := "Guest memory must be " ++ quantityString alignment ++ " aligned",
                       Field := (field.Child "domain" ["memory", "guest"]).String }]
        else causes
  -- line 115 reads `domain.Memory.MaxGuest` with no test of `domain.Memory`
  match domain.Memory with
  | none => none
  | some memory =>
    let causes :=
      match memory.MaxGuest with
      | some maxGuest =>
        if Int.tmod maxGuest.Value MemoryHotplugBlockAlignmentBytes ≠ 0 then
          let alignment := NewQuantity MemoryHotplugBlockAlignmentBytes Format.BinarySI
          causes ++ [{ Type_ := CauseTypeFieldValueInvalid,
                       Message := "MaxGuest must be " ++ quantityString alignment ++ " aligned",
                       Field := (field.Child "domain" ["memory", "maxGuest"]).String }]
        else causes
      | none => causes
    let causes :=
      if vmSpec.Architecture ≠ "amd64" then
        causes ++ [{ Type_ := CauseTypeFieldValueInvalid,
                     Message := "Memory hotplug is only available for x86_64 VMs",
                     Field := (field.Child "architecture" []).String }]
      else causes
    some causes

/-! ## Vocabulary of the specification

The violation records the rules emit, written out with their message and field
path, and the conditions of the rules as decidable tests on a spec. -/

/-- Rule 1: the memory limit violation. -/
def memoryLimitsCause : StatusCause :=
  { Type_ := CauseTypeFieldValueInvalid,
    Message := "Configuration of Memory limits is not allowed when Memory live update is enabled",
    Field := "spec.template.spec.domain.resources" }

/-- Rule 2: the realtime violation. -/
def realtimeCause : StatusCause :=
  { Type_ := CauseTypeFieldValueInvalid,
    Message := "Memory hotplug is not compatible with realtime VMs",
    Field := "spec.template.spec.domain.cpu.realtime" }

/-- Rule 3: the guest mapping passthrough violation. -/
def guestMappingPassthroughCause : StatusCause :=
  { Type_ := CauseTypeFieldValueInvalid,
    Message := "Memory hotplug is not compatible with guest mapping passthrough",
    Field := "spec.template.spec.domain.cpu.numa.guestMappingPassthrough" }

/-- Rule 4: the launch security violation. -/
def launchSecurityCause : StatusCause :=
  { Type_ := CauseTypeFieldValueInvalid,
    Message := "Memory hotplug is not compatible with encrypted VMs",
    Field := "spec.template.spec.domain.launchSecurity" }

/-- Rule 5: the dedicated CPU violation. -/
def dedicatedCPUCause : StatusCause :=
  { Type_ := CauseTypeFieldValueInvalid,
    Message := "Memory hotplug is not compatible with dedicated CPUs",
    Field := "spec.template.spec.domain.cpu.dedicatedCpuPlacement" }

/-- Rule 6: the hugepages violation. -/
def hugepagesCause : StatusCause :=
  { Type_ := CauseTypeFieldValueInvalid,
    Message := "Memory hotplug is not compatible with hugepages",
    Field := "spec.template.spec.domain.memory.hugepages" }

/-- The field path of the three violations of rule 7. -/
def guestField : String := "spec.template.spec.domain.memory.guest"

/-- Rule 7a: guest memory is not configured. -/
def guestNotConfiguredCause : StatusCause :=
  { Type_ := CauseTypeFieldValueInvalid,
    Message := "Guest memory must be configured when memory hotplug is enabled",
    Field := guestField }

/-- Rule 7b: guest memory exceeds maxGuest. -/
def guestGreaterThanMaxCause : StatusCause :=
  { Type_ := CauseTypeFieldValueInvalid,
    Message := "Guest memory is greater than the configured maxGuest memory",
    Field := guestField }

/-- The rendering of the block size that the two alignment messages carry. -/
def alignmentString (B : Int) (quantityString : Quantity → String) : String :=
  quantityString (NewQuantity B Format.BinarySI)

/-- Rule 7c: guest memory is not aligned. -/
def guestAlignmentCause (B : Int) (quantityString : Quantity → String) : StatusCause :=
  { Type_ := CauseTypeFieldValueInvalid,
    Message := "Guest memory must be " ++ alignmentString B quantityString ++ " aligned",
    Field := guestField }

/-- Rule 8: maxGuest is not aligned. -/
def maxGuestAlignmentCause (B : Int) (quantityString : Quantity → String) : StatusCause :=
  { Type_ := CauseTypeFieldValueInvalid,
    Message := "MaxGuest must be " ++ alignmentString B quantityString ++ " aligned",
    Field := "spec.template.spec.domain.memory.maxGuest" }

/-- Rule 9: the architecture violation. -/
def architectureCause : StatusCause :=
  { Type_ := CauseTypeFieldValueInvalid,
    Message := "Memory hotplug is only available for x86_64 VMs",
    Field := "spec.template.spec.architecture" }

/-- The resource limits of the domain have a memory entry. -/
def memoryLimitSet (d : DomainSpec) : Bool :=
  (d.Resources.Limits.lookup ResourceMemory).isSome

/-- The CPU section is present with realtime set. -/
def realtimeSet (d : DomainSpec) : Bool :=
  match d.CPU with
  | some cpu => cpu.Realtime.isSome
  | none => false

/-- The CPU section and its NUMA section are present with guest mapping
passthrough set. -/
def passthroughSet (d : DomainSpec) : Bool :=
  match d.CPU with
  | some cpu =>
    match cpu.NUMA with
    | some numa => numa.GuestMappingPassthrough.isSome
    | none => false
  | none => false

/-- The CPU section is present with dedicated CPU placement requested. -/
def dedicatedSet (d : DomainSpec) : Bool :=
  match d.CPU with
  | some cpu => cpu.DedicatedCPUPlacement
  | none => false

/-- The memory section is present with hugepages set. -/
def hugepagesSet (d : DomainSpec) : Bool :=
  match d.Memory with
  | some memory => memory.Hugepages.isSome
  | none => false

/-- A spec with none of the features of rules 2 to 6: no realtime, no guest
mapping passthrough, no launch security, no dedicated CPUs, no hugepages. -/
def noFeatures (d : DomainSpec) : Prop :=
  realtimeSet d = false ∧ passthroughSet d = false ∧ d.LaunchSecurity = none ∧
    dedicatedSet d = false ∧ hugepagesSet d = false

/-- The number of entries of a list of tests that hold. -/
def countTrue (l : List Bool) : Nat :=
  (l.filter id).length

/-- A message of the rule 7 chain: one of its three messages. -/
def isGuestChainMessage (B : Int) (quantityString : Quantity → String) (msg : String) : Bool :=
  decide (msg = guestNotConfiguredCause.Message ∨ msg = guestGreaterThanMaxCause.Message ∨
    msg = (guestAlignmentCause B quantityString).Message)

/-- A block size for the examples: 128Mi. -/
def sampleBlockBytes : Int := 134217728

/-- The rendering of the block size for the examples. -/
def sampleQuantityString : Quantity → String := fun _ => "128Mi"

/-- The clean configuration: no limits, no CPU section, no launch security, a
memory section with guest memory of one block and nothing else, amd64. -/
def cleanSpec : VirtualMachineInstanceSpec :=
  { Domain :=
      { Resources := { Requests := [], Limits := [] },
        CPU := none,
        Memory := some { Hugepages := none,
                         Guest := some (NewQuantity sampleBlockBytes Format.BinarySI),
                         MaxGuest := none },
        LaunchSecurity := none },
    Architecture := "amd64" }

/-- The clean configuration without its memory section. -/
def specWithoutMemory : VirtualMachineInstanceSpec :=
  { Domain := { Resources := { Requests := [], Limits := [] }, CPU := none, Memory := none,
                LaunchSecurity := none },
    Architecture := "amd64" }

/-- A spec whose guest memory of 3 bytes exceeds its maxGuest of 2 bytes. -/
def exceedingSpec : VirtualMachineInstanceSpec :=
  { Domain :=
      { Resources := { Requests := [], Limits := [] },
        CPU := none,
        Memory := some { Hugepages := none,
                         Guest := some (NewQuantity 3 Format.BinarySI),
                         MaxGuest := some (NewQuantity 2 Format.BinarySI) },
        LaunchSecurity := none },
    Architecture := "amd64" }

/-- The memory section is present with maxGuest set and `Value()` of maxGuest is
not a multiple of the block size; for a whole byte count within the `int64`
range, maxGuest is not a multiple of the block size. -/
def maxGuestMisaligned (B : Int) (d : DomainSpec) : Bool :=
  match d.Memory with
  | some memory =>
    match memory.MaxGuest with
    | some maxGuest => decide (maxGuest.Value % B ≠ 0)
    | none => false
  | none => false

/-- The number of rules among 1 to 6, 8 and 9 that a spec violates. -/
def violatedRuleCount (B : Int) (vmSpec : VirtualMachineInstanceSpec) : Nat :=
  countTrue [memoryLimitSet vmSpec.Domain, realtimeSet vmSpec.Domain,
    passthroughSet vmSpec.Domain, vmSpec.Domain.LaunchSecurity.isSome,
    dedicatedSet vmSpec.Domain, hugepagesSet vmSpec.Domain,
    maxGuestMisaligned B vmSpec.Domain, decide (vmSpec.Architecture ≠ "amd64")]

/-- The clean configuration with the guest quantity removed. -/
def missingGuestSpec : VirtualMachineInstanceSpec :=
  { Domain :=
      { Resources := { Requests := [], Limits := [] },
        CPU := none,
        Memory := some { Hugepages := none, Guest := none, MaxGuest := none },
        LaunchSecurity := none },
    Architecture := "amd64" }

/-- An otherwise clean configuration with guest memory of two blocks and maxGuest
of one block. -/
def maxExceededSpec : VirtualMachineInstanceSpec :=
  { Domain :=
      { Resources := { Requests := [], Limits := [] },
        CPU := none,
        Memory := some { Hugepages := none,
                         Guest := some (NewQuantity (2 * sampleBlockBytes) Format.BinarySI),
                         MaxGuest := some (NewQuantity sampleBlockBytes Format.BinarySI) },
        LaunchSecurity := none },
    Architecture := "amd64" }

/-- The clean configuration on another architecture. -/
def arm64Spec : VirtualMachineInstanceSpec :=
  { cleanSpec with Architecture := "arm64" }

/-- The field paths of the nine rules, in rule order. -/
def ruleFields : List String :=
  ["spec.template.spec.domain.resources",
   "spec.template.spec.domain.cpu.realtime",
   "spec.template.spec.domain.cpu.numa.guestMappingPassthrough",
   "spec.template.spec.domain.launchSecurity",
   "spec.template.spec.domain.cpu.dedicatedCpuPlacement",
   "spec.template.spec.domain.memory.hugepages",
   "spec.template.spec.domain.memory.guest",
   "spec.template.spec.domain.memory.maxGuest",
   "spec.template.spec.architecture"]

/-- A spec that violates every rule at once: a memory limit, realtime, guest
mapping passthrough, launch security, dedicated CPUs, hugepages, no guest
memory, a maxGuest of one byte, and an architecture other than amd64. -/
def fullyViolatingSpec : VirtualMachineInstanceSpec :=
  { Domain :=
      { Resources := { Requests := [],
                       Limits := [(ResourceMemory, NewQuantity sampleBlockBytes Format.BinarySI)] },
        CPU := some { Realtime := some { Mask := "" },
                      NUMA := some { GuestMappingPassthrough := some {} },
                      DedicatedCPUPlacement := true },
        Memory := some { Hugepages := some { PageSize := "2Mi" },
                         Guest := none,
                         MaxGuest := some (NewQuantity 1 Format.BinarySI) },
        LaunchSecurity := some {} },
    Architecture := "arm64" }

/-- The nine violations of a spec that violates every rule with guest memory
unset, in rule order. -/
def allNineCauses (B : Int) (quantityString : Quantity → String) : List StatusCause :=
  [memoryLimitsCause, realtimeCause, guestMappingPassthroughCause, launchSecurityCause,
   dedicatedCPUCause, hugepagesCause, guestNotConfiguredCause,
   maxGuestAlignmentCause B quantityString, architectureCause]

/-- The clean configuration with its architecture left empty. -/
def noArchitectureSpec : VirtualMachineInstanceSpec :=
  { cleanSpec with Architecture := "" }

/-- A rule's contribution: the violation when the test holds, nothing otherwise. -/
def emitIf (c : Bool) (x : StatusCause) : List StatusCause :=
  if c then [x] else []

/-- The contribution of the chain of rule 7 for a present memory section. -/
def guestPart (B : Int) (quantityString : Quantity → String) (memory : Memory) :
    List StatusCause :=
  match memory.Guest with
  | none => [guestNotConfiguredCause]
  | some guest =>
    match memory.MaxGuest with
    | some maxGuest =>
      if guest.bytes > maxGuest.bytes then [guestGreaterThanMaxCause]
      else emitIf (decide (Int.tmod guest.Value B ≠ 0)) (guestAlignmentCause B quantityString)
    | none => emitIf (decide (Int.tmod guest.Value B ≠ 0)) (guestAlignmentCause B quantityString)

/-- The contribution of rule 8 for a present memory section. -/
def maxGuestPart (B : Int) (quantityString : Quantity → String) (memory : Memory) :
    List StatusCause :=
  match memory.MaxGuest with
  | some maxGuest =>
    emitIf (decide (Int.tmod maxGuest.Value B ≠ 0)) (maxGuestAlignmentCause B quantityString)
  | none => []

/-- The contributions of rules 2 to 6. -/
def featurePart (d : DomainSpec) : List StatusCause :=
  emitIf (realtimeSet d) realtimeCause ++ emitIf (passthroughSet d) guestMappingPassthroughCause ++
    emitIf d.LaunchSecurity.isSome launchSecurityCause ++ emitIf (dedicatedSet d) dedicatedCPUCause ++
    emitIf (hugepagesSet d) hugepagesCause

theorem Quantity.Cmp_pos (q y : Quantity) : q.Cmp y > 0 ↔ q.bytes > y.bytes := by
  unfold Quantity.Cmp
  split_ifs with h1 h2
  · exact ⟨fun h => absurd h (by decide), fun h => absurd h (not_lt_of_lt h1)⟩
  · exact ⟨fun h => absurd h (by decide), fun h => absurd h (by rw [h2]; exact lt_irrefl _)⟩
  · exact ⟨fun _ => lt_of_le_of_ne (not_lt.mp h1) (Ne.symm h2), fun _ => by decide⟩

theorem Quantity.holdsBytes_NewQuantity (V : Int) (format : Format) :
    (NewQuantity V format).holdsBytes V :=
  ⟨rfl, rfl⟩

theorem ResourceList.Memory_ne_none (rl : ResourceList) : rl.Memory ≠ none := by
  unfold ResourceList.Memory ResourceList.Name
  split <;> simp

theorem emitIf_false (x : StatusCause) : emitIf false x = [] := rfl

theorem emitIf_true (x : StatusCause) : emitIf true x = [x] := rfl

theorem decide_ne_none {α : Type} (o : Option α) [Decidable (¬ o = none)] :
    decide (¬ o = none) = o.isSome := by
  cases o <;> simp

theorem ite_append_one (c : Prop) [Decidable c] (l : List StatusCause) (x : StatusCause) :
    (if c then l ++ [x] else l) = l ++ emitIf (decide c) x := by
  unfold emitIf
  by_cases h : c <;> simp [h]

/-- The result on a spec with a memory section: the memory limit violation,
then what rules 2 to 9 contribute, in rule order. -/
theorem ValidateMemoryHotplug_of_memory (B : Int) (qs : Quantity → String)
    (vmSpec : VirtualMachineInstanceSpec) (memory : Memory)
    (h : vmSpec.Domain.Memory = some memory) :
    ValidateMemoryHotplug B qs vmSpec =
      some (memoryLimitsCause :: (featurePart vmSpec.Domain ++ guestPart B qs memory ++
        maxGuestPart B qs memory ++
        emitIf (decide (vmSpec.Architecture ≠ "amd64")) architectureCause)) := by
  obtain ⟨⟨res, cpu, mem, ls⟩, arch⟩ := vmSpec
  simp only at h
  subst h
  have p1 : ((NewPath "spec" ["template", "spec"]).Child "domain" ["resources"]).String
      = "spec.template.spec.domain.resources" := by decide
  have p2 : ((NewPath "spec" ["template", "spec"]).Child "domain" ["cpu", "realtime"]).String
      = "spec.template.spec.domain.cpu.realtime" := by decide
  have p3 : ((NewPath "spec" ["template", "spec"]).Child "domain"
      ["cpu", "numa", "guestMappingPassthrough"]).String
      = "spec.template.spec.domain.cpu.numa.guestMappingPassthrough" := by decide
  have p4 : ((NewPath "spec" ["template", "spec"]).Child "domain" ["launchSecurity"]).String
      = "spec.template.spec.domain.launchSecurity" := by decide
  have p5 : ((NewPath "spec" ["template", "spec"]).Child "domain"
      ["cpu", "dedicatedCpuPlacement"]).String
      = "spec.template.spec.domain.cpu.dedicatedCpuPlacement" := by decide
  have p6 : ((NewPath "spec" ["template", "spec"]).Child "domain" ["memory", "hugepages"]).String
      = "spec.template.spec.domain.memory.hugepages" := by decide
  have p7 : ((NewPath "spec" ["template", "spec"]).Child "domain" ["memory", "guest"]).String
      = "spec.template.spec.domain.memory.guest" := by decide
  have p8 : ((NewPath "spec" ["template", "spec"]).Child "domain" ["memory", "maxGuest"]).String
      = "spec.template.spec.domain.memory.maxGuest" := by decide
  have p9 : ((NewPath "spec" ["template", "spec"]).Child "architecture" []).String
      = "spec.template.spec.architecture" := by decide
  obtain ⟨hp, guest, maxGuest⟩ := memory
  have hlim : res.Limits.Memory ≠ none := ResourceList.Memory_ne_none _
  rcases cpu with _ | ⟨rt, _ | ⟨gmp⟩, ded⟩ <;> rcases guest with _ | guest <;>
    rcases maxGuest with _ | maxGuest <;>
    simp only [ValidateMemoryHotplug, p1, p2, p3, p4, p5, p6, p7, p8, p9, ne_eq, hlim,
      not_false_eq_true, if_true, List.nil_append, ite_append_one, decide_ne_none, featurePart,
      guestPart,
      maxGuestPart, realtimeSet, passthroughSet, dedicatedSet, hugepagesSet, Quantity.Cmp_pos,
      Quantity.Value, memoryLimitsCause, realtimeCause, guestMappingPassthroughCause,
      launchSecurityCause, dedicatedCPUCause, hugepagesCause, guestNotConfiguredCause,
      guestGreaterThanMaxCause, guestAlignmentCause, maxGuestAlignmentCause, architectureCause,
      alignmentString, guestField]
  all_goals try simp [emitIf_false]
  all_goals by_cases hgt : maxGuest.bytes < guest.bytes <;> simp [hgt, emitIf_false]

/-- The validator faults on a spec with no memory section. -/
theorem ValidateMemoryHotplug_of_no_memory (B : Int) (qs : Quantity → String)
    (vmSpec : VirtualMachineInstanceSpec) (h : vmSpec.Domain.Memory = none) :
    ValidateMemoryHotplug B qs vmSpec = none := by
  unfold ValidateMemoryHotplug
  simp only [h]

/-! ## Arithmetic and strings -/

/-- Go's truncated remainder is nonzero exactly when the mathematical one is. -/
theorem tmod_ne_zero_iff (a b : Int) : Int.tmod a b ≠ 0 ↔ a % b ≠ 0 := by
  rw [ne_eq, ne_eq, ← Int.dvd_iff_tmod_eq_zero, ← Int.dvd_iff_emod_eq_zero]

theorem str_ne_of_take (n : Nat) (a b : String) (h : a.data.take n ≠ b.data.take n) :
    a ≠ b := by
  intro e
  exact h (by rw [e])

theorem str_ne_of_reverse_take (n : Nat) (a b : String)
    (h : a.data.reverse.take n ≠ b.data.reverse.take n) : a ≠ b := by
  intro e
  exact h (by rw [e])

theorem take_append3 (n : Nat) (p s t : String) (hn : n ≤ p.length) :
    (p ++ s ++ t).data.take n = p.data.take n := by
  rw [String.data_append, String.data_append, List.append_assoc]
  exact List.take_append_of_le_length hn

theorem reverse_take_append3 (n : Nat) (p s t : String) (hn : n ≤ t.length) :
    (p ++ s ++ t).data.reverse.take n = t.data.reverse.take n := by
  rw [String.data_append, List.reverse_append]
  exact List.take_append_of_le_length (by simpa using hn)

/-- The guest alignment message is never the message of rule 7a, whatever the
rendering of the block size: the two end differently. -/
theorem guestAlignment_ne_notConfigured (B : Int) (qs : Quantity → String) :
    guestAlignmentCause B qs ≠ guestNotConfiguredCause := by
  intro e
  have h : (guestAlignmentCause B qs).Message = guestNotConfiguredCause.Message := by rw [e]
  revert h
  apply str_ne_of_reverse_take 3
  show ("Guest memory must be " ++ alignmentString B qs ++ " aligned").data.reverse.take 3 ≠ _
  rw [reverse_take_append3 3 _ _ _ (by decide)]
  decide

/-- The guest alignment message is never the message of rule 7b: the two differ
at their fourteenth character. -/
theorem guestAlignment_ne_greaterThanMax (B : Int) (qs : Quantity → String) :
    guestAlignmentCause B qs ≠ guestGreaterThanMaxCause := by
  intro e
  have h : (guestAlignmentCause B qs).Message = guestGreaterThanMaxCause.Message := by rw [e]
  revert h
  apply str_ne_of_take 14
  show ("Guest memory must be " ++ alignmentString B qs ++ " aligned").data.take 14 ≠ _
  rw [take_append3 14 _ _ _ (by decide)]
  decide

/-! ## Membership and the violations on the guest field -/

theorem mem_emitIf (c : Bool) (x y : StatusCause) : y ∈ emitIf c x ↔ c = true ∧ y = x := by
  cases c <;> simp [emitIf]

theorem length_emitIf (c : Bool) (x : StatusCause) :
    (emitIf c x).length = if c then 1 else 0 := by
  cases c <;> rfl

theorem filter_emitIf_of_false (p : StatusCause → Bool) (c : Bool) (x : StatusCause)
    (h : p x = false) : (emitIf c x).filter p = [] := by
  cases c <;> simp [emitIf, h]

theorem filter_emitIf_of_true (p : StatusCause → Bool) (c : Bool) (x : StatusCause)
    (h : p x = true) : (emitIf c x).filter p = emitIf c x := by
  cases c <;> simp [emitIf, h]

/-- Every violation of rules 2 to 6 is one of the five fixed records. -/
theorem mem_featurePart (d : DomainSpec) (y : StatusCause) (h : y ∈ featurePart d) :
    y = realtimeCause ∨ y = guestMappingPassthroughCause ∨ y = launchSecurityCause ∨
      y = dedicatedCPUCause ∨ y = hugepagesCause := by
  simp only [featurePart, List.mem_append, mem_emitIf] at h
  tauto

/-- Every violation of the rule 7 chain is one of its three records. -/
theorem mem_guestPart (B : Int) (qs : Quantity → String) (memory : Memory) (y : StatusCause)
    (h : y ∈ guestPart B qs memory) :
    y = guestNotConfiguredCause ∨ y = guestGreaterThanMaxCause ∨ y = guestAlignmentCause B qs := by
  unfold guestPart at h
  split at h
  · simp at h; tauto
  · split at h
    · split_ifs at h
      · simp at h; tauto
      · rw [mem_emitIf] at h; tauto
    · rw [mem_emitIf] at h; tauto

/-- The chain of rule 7 contributes at most one violation. -/
theorem length_guestPart_le (B : Int) (qs : Quantity → String) (memory : Memory) :
    (guestPart B qs memory).length ≤ 1 := by
  unfold guestPart
  split
  · simp
  · split
    · split_ifs
      · simp
      · rw [length_emitIf]; split_ifs <;> omega
    · rw [length_emitIf]; split_ifs <;> omega

theorem filter_guestPart_field (B : Int) (qs : Quantity → String) (memory : Memory) :
    (guestPart B qs memory).filter (fun c => decide (c.Field = guestField)) =
      guestPart B qs memory := by
  apply List.filter_eq_self.mpr
  intro y hy
  rcases mem_guestPart B qs memory y hy with e | e | e <;> subst e <;> simp <;> rfl

/-- The violations on the guest field are those of the rule 7 chain. -/
theorem filter_guestField (B : Int) (qs : Quantity → String) (d : DomainSpec)
    (memory : Memory) (a : Bool) :
    (memoryLimitsCause :: (featurePart d ++ guestPart B qs memory ++ maxGuestPart B qs memory ++
        emitIf a architectureCause)).filter (fun c => decide (c.Field = guestField)) =
      guestPart B qs memory := by
  have h0 : decide (memoryLimitsCause.Field = guestField) = false := by decide
  have h1 : (featurePart d).filter (fun c => decide (c.Field = guestField)) = [] := by
    simp only [featurePart, List.filter_append]
    rw [filter_emitIf_of_false _ _ _ (by decide), filter_emitIf_of_false _ _ _ (by decide),
      filter_emitIf_of_false _ _ _ (by decide), filter_emitIf_of_false _ _ _ (by decide),
      filter_emitIf_of_false _ _ _ (by decide)]
    rfl
  have h2 : (maxGuestPart B qs memory).filter (fun c => decide (c.Field = guestField)) = [] := by
    unfold maxGuestPart
    split
    · exact filter_emitIf_of_false _ _ _ (by simp [maxGuestAlignmentCause, guestField])
    · rfl
  have h3 : (emitIf a architectureCause).filter (fun c => decide (c.Field = guestField)) = [] :=
    filter_emitIf_of_false _ _ _ (by decide)
  rw [List.filter_cons_of_neg (by simp [h0]), List.filter_append, List.filter_append,
    List.filter_append, h1, h2, h3, filter_guestPart_field]
  simp

/-- A message that does not start with the letter G is no message of the rule 7
chain. -/
theorem not_chain_of_first (B : Int) (qs : Quantity → String) (msg : String)
    (h : msg.data.take 1 ≠ ['G']) : isGuestChainMessage B qs msg = false := by
  unfold isGuestChainMessage
  rw [decide_eq_false_iff_not]
  rintro (e | e | e)
  · exact h (by rw [e]; decide)
  · exact h (by rw [e]; decide)
  · apply h
    rw [e]
    show ("Guest memory must be " ++ alignmentString B qs ++ " aligned").data.take 1 = _
    rw [take_append3 1 _ _ _ (by decide)]
    decide

theorem filter_guestPart_message (B : Int) (qs : Quantity → String) (memory : Memory) :
    (guestPart B qs memory).filter (fun c => isGuestChainMessage B qs c.Message) =
      guestPart B qs memory := by
  apply List.filter_eq_self.mpr
  intro y hy
  rcases mem_guestPart B qs memory y hy with e | e | e <;> subst e <;>
    simp [isGuestChainMessage]

/-- The violations carrying a message of the rule 7 chain are those of the
chain. -/
theorem filter_chainMessage (B : Int) (qs : Quantity → String) (d : DomainSpec)
    (memory : Memory) (a : Bool) :
    (memoryLimitsCause :: (featurePart d ++ guestPart B qs memory ++ maxGuestPart B qs memory ++
        emitIf a architectureCause)).filter (fun c => isGuestChainMessage B qs c.Message) =
      guestPart B qs memory := by
  have h0 : isGuestChainMessage B qs memoryLimitsCause.Message = false :=
    not_chain_of_first B qs _ (by decide)
  have h1 : (featurePart d).filter (fun c => isGuestChainMessage B qs c.Message) = [] := by
    simp only [featurePart, List.filter_append]
    rw [filter_emitIf_of_false _ _ _ (not_chain_of_first B qs _ (by decide)),
      filter_emitIf_of_false _ _ _ (not_chain_of_first B qs _ (by decide)),
      filter_emitIf_of_false _ _ _ (not_chain_of_first B qs _ (by decide)),
      filter_emitIf_of_false _ _ _ (not_chain_of_first B qs _ (by decide)),
      filter_emitIf_of_false _ _ _ (not_chain_of_first B qs _ (by decide))]
    rfl
  have h2 : (maxGuestPart B qs memory).filter (fun c => isGuestChainMessage B qs c.Message)
      = [] := by
    unfold maxGuestPart
    split
    · apply filter_emitIf_of_false
      apply not_chain_of_first
      show ("MaxGuest must be " ++ alignmentString B qs ++ " aligned").data.take 1 ≠ _
      rw [take_append3 1 _ _ _ (by decide)]
      decide
    · rfl
  have h3 : (emitIf a architectureCause).filter (fun c => isGuestChainMessage B qs c.Message)
      = [] :=
    filter_emitIf_of_false _ _ _ (not_chain_of_first B qs _ (by decide))
  rw [List.filter_cons_of_neg (by simp [h0]), List.filter_append, List.filter_append,
    List.filter_append, h1, h2, h3, filter_guestPart_message]
  simp

/-- A returned result comes from a spec with a memory section and is the
concatenation of the rules' contributions. -/
theorem ValidateMemoryHotplug_eq_some (B : Int) (qs : Quantity → String)
    (vmSpec : VirtualMachineInstanceSpec) (r : List StatusCause)
    (h : ValidateMemoryHotplug B qs vmSpec = some r) :
    ∃ memory, vmSpec.Domain.Memory = some memory ∧
      r = memoryLimitsCause :: (featurePart vmSpec.Domain ++ guestPart B qs memory ++
        maxGuestPart B qs memory ++
        emitIf (decide (vmSpec.Architecture ≠ "amd64")) architectureCause) := by
  cases hm : vmSpec.Domain.Memory with
  | none => rw [ValidateMemoryHotplug_of_no_memory B qs vmSpec hm] at h; cases h
  | some memory =>
    rw [ValidateMemoryHotplug_of_memory B qs vmSpec memory hm] at h
    exact ⟨memory, rfl, (Option.some.inj h).symm⟩

/-! ## The claims -/

/-- C1 (totality fails in the code): the validator returns a list exactly when the
spec has a memory section. On a spec without one the read of
`domain.Memory.MaxGuest` at line 115 dereferences nil and the call faults; the
second part evaluates the code on such a spec. -/
theorem ValidateMemoryHotplug_faults_iff_no_memory :
    (∀ (B : Int) (qs : Quantity → String) (vmSpec : VirtualMachineInstanceSpec),
      ValidateMemoryHotplug B qs vmSpec = none ↔ vmSpec.Domain.Memory = none) ∧
    ValidateMemoryHotplug sampleBlockBytes sampleQuantityString specWithoutMemory = none := by
  refine ⟨fun B qs vmSpec => ⟨fun h => ?_, ValidateMemoryHotplug_of_no_memory B qs vmSpec⟩, ?_⟩
  · cases hm : vmSpec.Domain.Memory with
    | none => rfl
    | some memory =>
      rw [ValidateMemoryHotplug_of_memory B qs vmSpec memory hm] at h
      cases h
  · exact ValidateMemoryHotplug_of_no_memory _ _ _ rfl

/-- C2 (clean configuration, as the code behaves): on every clean spec, with no
memory entry in the limits, none of the features of rules 2 to 6, guest memory
of exactly `B` bytes, no maxGuest and architecture amd64, the validator returns
one violation, the memory limit one, and not the empty list:
`Limits.Memory()` is never nil, so the test of rule 1 always succeeds. -/
theorem clean_spec_reports_memory_limit (B : Int) (qs : Quantity → String)
    (vmSpec : VirtualMachineInstanceSpec) (memory : Memory) (guest : Quantity)
    (_hB : 0 < B) (_hlim : memoryLimitSet vmSpec.Domain = false)
    (hfeat : noFeatures vmSpec.Domain)
    (hm : vmSpec.Domain.Memory = some memory) (hg : memory.Guest = some guest)
    (hv : guest.holdsBytes B) (hmax : memory.MaxGuest = none)
    (harch : vmSpec.Architecture = "amd64") :
    ValidateMemoryHotplug B qs vmSpec = some [memoryLimitsCause] := by
  obtain ⟨h2, h3, h4, h5, h6⟩ := hfeat
  have hmod : Int.tmod guest.Value B = 0 := by
    rw [hv.2]; exact Int.tmod_self
  rw [ValidateMemoryHotplug_of_memory B qs vmSpec memory hm]
  simp [featurePart, guestPart, maxGuestPart, h2, h3, h4, h5, h6, hg, hmax, harch, hmod,
    emitIf]

theorem clean_spec_reports_memory_limit_witness :
    memoryLimitSet cleanSpec.Domain = false ∧
      ValidateMemoryHotplug sampleBlockBytes sampleQuantityString cleanSpec =
        some [memoryLimitsCause] :=
  ⟨by decide,
   clean_spec_reports_memory_limit sampleBlockBytes sampleQuantityString cleanSpec
    { Hugepages := none, Guest := some (NewQuantity sampleBlockBytes Format.BinarySI),
      MaxGuest := none }
    (NewQuantity sampleBlockBytes Format.BinarySI) (by decide) (by decide)
    ⟨by decide, by decide, by decide, by decide, by decide⟩ rfl rfl ⟨rfl, rfl⟩ rfl rfl⟩

/-- C3 (memory limit rule, as the code behaves): every returned result contains
the memory limit violation, as its first element, whether or not the limits of
the domain have a memory entry. -/
theorem memory_limit_always_reported (B : Int) (qs : Quantity → String)
    (vmSpec : VirtualMachineInstanceSpec) (r : List StatusCause)
    (h : ValidateMemoryHotplug B qs vmSpec = some r) :
    memoryLimitsCause ∈ r ∧ r.head? = some memoryLimitsCause := by
  obtain ⟨memory, -, rfl⟩ := ValidateMemoryHotplug_eq_some B qs vmSpec r h
  exact ⟨List.mem_cons_self _ _, rfl⟩

theorem memory_limit_always_reported_witness :
    memoryLimitSet cleanSpec.Domain = false ∧
      (memoryLimitsCause ∈ [memoryLimitsCause] ∧
        [memoryLimitsCause].head? = some memoryLimitsCause) :=
  ⟨by decide,
   memory_limit_always_reported sampleBlockBytes sampleQuantityString cleanSpec
    [memoryLimitsCause] (by decide)⟩

/-- Membership of a rule 7 record in a returned result is membership in the
chain's contribution. -/
theorem mem_result_iff_mem_guestPart (B : Int) (qs : Quantity → String) (d : DomainSpec)
    (memory : Memory) (a : Bool) (y : StatusCause) (hy : y.Field = guestField) :
    y ∈ memoryLimitsCause :: (featurePart d ++ guestPart B qs memory ++
        maxGuestPart B qs memory ++ emitIf a architectureCause) ↔
      y ∈ guestPart B qs memory := by
  constructor
  · intro h
    have hf : y ∈ (memoryLimitsCause :: (featurePart d ++ guestPart B qs memory ++
        maxGuestPart B qs memory ++ emitIf a architectureCause)).filter
        (fun c => decide (c.Field = guestField)) :=
      List.mem_filter.mpr ⟨h, by simp [hy]⟩
    rwa [filter_guestField] at hf
  · intro h
    simp [h]

/-- C5 (chain exclusivity): in every returned result at most one violation has
the field `spec.template.spec.domain.memory.guest`, and at most one violation
carries one of the three messages of the rule 7 chain. -/
theorem guest_chain_exclusive (B : Int) (qs : Quantity → String)
    (vmSpec : VirtualMachineInstanceSpec) (r : List StatusCause)
    (h : ValidateMemoryHotplug B qs vmSpec = some r) :
    (r.filter (fun c => decide (c.Field = "spec.template.spec.domain.memory.guest"))).length ≤ 1 ∧
      (r.filter (fun c => isGuestChainMessage B qs c.Message)).length ≤ 1 := by
  obtain ⟨memory, -, rfl⟩ := ValidateMemoryHotplug_eq_some B qs vmSpec r h
  constructor
  · have := filter_guestField B qs vmSpec.Domain memory
      (decide (vmSpec.Architecture ≠ "amd64"))
    unfold guestField at this
    rw [this]
    exact length_guestPart_le B qs memory
  · rw [filter_chainMessage]
    exact length_guestPart_le B qs memory

theorem guest_chain_exclusive_witness :
    ([memoryLimitsCause, guestGreaterThanMaxCause].filter
        (fun c => decide (c.Field = "spec.template.spec.domain.memory.guest"))).length ≤ 1 ∧
      ([memoryLimitsCause, guestGreaterThanMaxCause].filter
        (fun c => isGuestChainMessage 2 sampleQuantityString c.Message)).length ≤ 1 :=
  guest_chain_exclusive 2 sampleQuantityString exceedingSpec
    [memoryLimitsCause, guestGreaterThanMaxCause] (by decide)

theorem countTrue_cons (b : Bool) (l : List Bool) :
    countTrue (b :: l) = (if b then 1 else 0) + countTrue l := by
  cases b
  · simp [countTrue]
  · simp [countTrue]; omega

theorem length_featurePart (d : DomainSpec) :
    (featurePart d).length =
      countTrue [realtimeSet d, passthroughSet d, d.LaunchSecurity.isSome, dedicatedSet d,
        hugepagesSet d] := by
  simp only [featurePart, List.length_append, length_emitIf, countTrue_cons]
  simp [countTrue]
  omega

/-- C6 (completeness, as the code behaves): on a spec whose guest memory is set,
does not exceed maxGuest and whose `Value()` is a multiple of `B` (for a whole
byte count within the `int64` range: guest is a multiple of `B`), so that rule 7
emits nothing, the validator returns a
result whose length is the number of violated rules among 1 to 6, 8 and 9, plus
one when the limits have no memory entry: rule 1 emits its violation whether or
not a memory limit is set. -/
theorem result_length_counts_memory_limit_always (B : Int) (qs : Quantity → String)
    (vmSpec : VirtualMachineInstanceSpec) (memory : Memory) (guest : Quantity)
    (_hB : 0 < B) (hm : vmSpec.Domain.Memory = some memory) (hg : memory.Guest = some guest)
    (hle : ∀ maxGuest, memory.MaxGuest = some maxGuest → guest.bytes ≤ maxGuest.bytes)
    (hmul : guest.Value % B = 0) :
    ∃ r, ValidateMemoryHotplug B qs vmSpec = some r ∧
      r.length = violatedRuleCount B vmSpec +
        (if memoryLimitSet vmSpec.Domain = true then 0 else 1) := by
  refine ⟨_, ValidateMemoryHotplug_of_memory B qs vmSpec memory hm, ?_⟩
  have hmod : ¬ Int.tmod guest.Value B ≠ 0 := by
    rw [tmod_ne_zero_iff]; simpa using hmul
  have hguest : guestPart B qs memory = [] := by
    unfold guestPart
    rw [hg]
    cases hmax : memory.MaxGuest with
    | none => simp [emitIf, hmod]
    | some maxGuest =>
      have := hle maxGuest hmax
      have hn : ¬ guest.bytes > maxGuest.bytes := not_lt.mpr this
      simp [emitIf, hmod, hn]
  have hmaxlen : (maxGuestPart B qs memory).length =
      if maxGuestMisaligned B vmSpec.Domain = true then 1 else 0 := by
    unfold maxGuestPart maxGuestMisaligned
    rw [hm]
    cases hmax : memory.MaxGuest with
    | none => simp [hmax]
    | some maxGuest => simp [hmax, length_emitIf, tmod_ne_zero_iff]
  simp only [List.length_cons, List.length_append, hguest, List.length_nil, hmaxlen,
    length_emitIf, length_featurePart, violatedRuleCount, countTrue_cons]
  split_ifs <;> omega

theorem result_length_counts_memory_limit_always_witness :
    violatedRuleCount sampleBlockBytes cleanSpec = 0 ∧
      ∃ r, ValidateMemoryHotplug sampleBlockBytes sampleQuantityString cleanSpec = some r ∧
        r.length = violatedRuleCount sampleBlockBytes cleanSpec +
          (if memoryLimitSet cleanSpec.Domain = true then 0 else 1) :=
  ⟨by decide,
   result_length_counts_memory_limit_always sampleBlockBytes sampleQuantityString cleanSpec
    { Hugepages := none, Guest := some (NewQuantity sampleBlockBytes Format.BinarySI),
      MaxGuest := none }
    (NewQuantity sampleBlockBytes Format.BinarySI) (by decide) rfl rfl
    (fun _ hmax => by cases hmax) (by decide)⟩

/-- C7 (missing guest memory, as the code behaves): on a spec whose memory section
is absent the validator faults and returns no result; on a spec whose memory
section is present with no guest quantity it returns a result that contains the
"Guest memory must be configured" violation and neither of the other two
violations of the chain. -/
theorem missing_guest_reported_only_with_memory_section (B : Int) (qs : Quantity → String)
    (vmSpec : VirtualMachineInstanceSpec) :
    (vmSpec.Domain.Memory = none → ValidateMemoryHotplug B qs vmSpec = none) ∧
      (∀ memory, vmSpec.Domain.Memory = some memory → memory.Guest = none →
        ∃ r, ValidateMemoryHotplug B qs vmSpec = some r ∧ guestNotConfiguredCause ∈ r ∧
          guestGreaterThanMaxCause ∉ r ∧ guestAlignmentCause B qs ∉ r) := by
  refine ⟨ValidateMemoryHotplug_of_no_memory B qs vmSpec, fun memory hm hg => ?_⟩
  refine ⟨_, ValidateMemoryHotplug_of_memory B qs vmSpec memory hm, ?_, ?_, ?_⟩
  · rw [mem_result_iff_mem_guestPart B qs _ _ _ _ rfl]
    simp [guestPart, hg]
  · rw [mem_result_iff_mem_guestPart B qs _ _ _ _ rfl]
    simp only [guestPart, hg, List.mem_singleton]
    decide
  · rw [mem_result_iff_mem_guestPart B qs _ _ _ _ rfl]
    simp only [guestPart, hg, List.mem_singleton]
    exact guestAlignment_ne_notConfigured B qs

theorem missing_guest_reported_only_with_memory_section_witness :
    ValidateMemoryHotplug sampleBlockBytes sampleQuantityString specWithoutMemory = none ∧
      ∃ r, ValidateMemoryHotplug sampleBlockBytes sampleQuantityString missingGuestSpec =
          some r ∧ guestNotConfiguredCause ∈ r ∧ guestGreaterThanMaxCause ∉ r ∧
          guestAlignmentCause sampleBlockBytes sampleQuantityString ∉ r :=
  ⟨(missing_guest_reported_only_with_memory_section sampleBlockBytes sampleQuantityString
      specWithoutMemory).1 rfl,
   (missing_guest_reported_only_with_memory_section sampleBlockBytes sampleQuantityString
      missingGuestSpec).2 { Hugepages := none, Guest := none, MaxGuest := none } rfl rfl⟩

/-- C8 (missing guest memory scenario, as the code behaves): on an otherwise clean
spec with the memory section present, guest unset and maxGuest unset, the
validator returns without fault two violations, the memory limit one followed
by "Guest memory must be configured", and not the latter alone. -/
theorem missing_guest_scenario_two_violations (B : Int) (qs : Quantity → String)
    (vmSpec : VirtualMachineInstanceSpec) (memory : Memory)
    (_hlim : memoryLimitSet vmSpec.Domain = false) (hfeat : noFeatures vmSpec.Domain)
    (hm : vmSpec.Domain.Memory = some memory) (hg : memory.Guest = none)
    (hmax : memory.MaxGuest = none) (harch : vmSpec.Architecture = "amd64") :
    ValidateMemoryHotplug B qs vmSpec = some [memoryLimitsCause, guestNotConfiguredCause] := by
  obtain ⟨h2, h3, h4, h5, h6⟩ := hfeat
  rw [ValidateMemoryHotplug_of_memory B qs vmSpec memory hm]
  simp [featurePart, guestPart, maxGuestPart, h2, h3, h4, h5, h6, hg, hmax, harch, emitIf]

theorem missing_guest_scenario_two_violations_witness :
    ValidateMemoryHotplug sampleBlockBytes sampleQuantityString missingGuestSpec =
      some [memoryLimitsCause, guestNotConfiguredCause] :=
  missing_guest_scenario_two_violations sampleBlockBytes sampleQuantityString missingGuestSpec
    { Hugepages := none, Guest := none, MaxGuest := none } (by decide)
    ⟨by decide, by decide, by decide, by decide, by decide⟩ rfl rfl rfl rfl

/-- C9 (maximum exceeded scenario, as the code behaves): for `B > 0`, on an
otherwise clean spec with guest memory `2 * B` bytes and maxGuest `B` bytes
(which `Value()` reports exactly, `B` being an `int64`) the validator
returns two violations, the memory limit one followed by "Guest memory is
greater than the configured maxGuest memory"; neither alignment violation is
among them. -/
theorem max_exceeded_scenario_two_violations (B : Int) (qs : Quantity → String)
    (vmSpec : VirtualMachineInstanceSpec) (memory : Memory) (guest maxGuest : Quantity)
    (hB : 0 < B) (_hlim : memoryLimitSet vmSpec.Domain = false)
    (hfeat : noFeatures vmSpec.Domain)
    (hm : vmSpec.Domain.Memory = some memory) (hg : memory.Guest = some guest)
    (hgv : guest.bytes = ((2 * B : Int) : ℚ)) (hmax : memory.MaxGuest = some maxGuest)
    (hmv : maxGuest.holdsBytes B) (harch : vmSpec.Architecture = "amd64") :
    ValidateMemoryHotplug B qs vmSpec = some [memoryLimitsCause, guestGreaterThanMaxCause] ∧
      guestAlignmentCause B qs ∉ [memoryLimitsCause, guestGreaterThanMaxCause] ∧
      maxGuestAlignmentCause B qs ∉ [memoryLimitsCause, guestGreaterThanMaxCause] := by
  obtain ⟨h2, h3, h4, h5, h6⟩ := hfeat
  have hBq : (0 : ℚ) < (B : ℚ) := by exact_mod_cast hB
  have hgt : guest.bytes > maxGuest.bytes := by
    rw [hgv, hmv.1]
    push_cast
    linarith
  have hmod : Int.tmod maxGuest.Value B = 0 := by
    rw [hmv.2]; exact Int.tmod_self
  refine ⟨?_, ?_, ?_⟩
  · rw [ValidateMemoryHotplug_of_memory B qs vmSpec memory hm]
    simp [featurePart, guestPart, maxGuestPart, h2, h3, h4, h5, h6, hg, hmax, harch, hgt, hmod,
      emitIf]
  · intro hin
    rcases List.mem_cons.mp hin with e | hin
    · have : guestField = memoryLimitsCause.Field :=
        congrArg StatusCause.Field e
      revert this
      decide
    · exact guestAlignment_ne_greaterThanMax B qs (List.mem_singleton.mp hin)
  · intro hin
    rcases List.mem_cons.mp hin with e | hin
    · have : "spec.template.spec.domain.memory.maxGuest" = memoryLimitsCause.Field :=
        congrArg StatusCause.Field e
      revert this
      decide
    · have : "spec.template.spec.domain.memory.maxGuest" = guestGreaterThanMaxCause.Field :=
        congrArg StatusCause.Field (List.mem_singleton.mp hin)
      revert this
      decide

theorem max_exceeded_scenario_two_violations_witness :
    ValidateMemoryHotplug sampleBlockBytes sampleQuantityString maxExceededSpec =
        some [memoryLimitsCause, guestGreaterThanMaxCause] ∧
      guestAlignmentCause sampleBlockBytes sampleQuantityString ∉
        [memoryLimitsCause, guestGreaterThanMaxCause] ∧
      maxGuestAlignmentCause sampleBlockBytes sampleQuantityString ∉
        [memoryLimitsCause, guestGreaterThanMaxCause] :=
  max_exceeded_scenario_two_violations sampleBlockBytes sampleQuantityString maxExceededSpec
    { Hugepages := none, Guest := some (NewQuantity (2 * sampleBlockBytes) Format.BinarySI),
      MaxGuest := some (NewQuantity sampleBlockBytes Format.BinarySI) }
    (NewQuantity (2 * sampleBlockBytes) Format.BinarySI)
    (NewQuantity sampleBlockBytes Format.BinarySI) (by decide) (by decide)
    ⟨by decide, by decide, by decide, by decide, by decide⟩ rfl rfl rfl rfl ⟨rfl, rfl⟩ rfl

/-- C10 (architecture scenario, as the code behaves): on a spec equal to the clean
configuration except that its architecture is not amd64, the validator returns
two violations, the memory limit one followed by the architecture one, whose
field is `spec.template.spec.architecture`. -/
theorem architecture_scenario_two_violations (B : Int) (qs : Quantity → String)
    (vmSpec : VirtualMachineInstanceSpec) (memory : Memory) (guest : Quantity)
    (_hB : 0 < B) (_hlim : memoryLimitSet vmSpec.Domain = false)
    (hfeat : noFeatures vmSpec.Domain)
    (hm : vmSpec.Domain.Memory = some memory) (hg : memory.Guest = some guest)
    (hv : guest.holdsBytes B) (hmax : memory.MaxGuest = none)
    (harch : vmSpec.Architecture ≠ "amd64") :
    ValidateMemoryHotplug B qs vmSpec = some [memoryLimitsCause, architectureCause] ∧
      architectureCause.Field = "spec.template.spec.architecture" := by
  obtain ⟨h2, h3, h4, h5, h6⟩ := hfeat
  have hmod : Int.tmod guest.Value B = 0 := by
    rw [hv.2]; exact Int.tmod_self
  refine ⟨?_, rfl⟩
  rw [ValidateMemoryHotplug_of_memory B qs vmSpec memory hm]
  simp [featurePart, guestPart, maxGuestPart, h2, h3, h4, h5, h6, hg, hmax, harch, hmod,
    emitIf]

theorem architecture_scenario_two_violations_witness :
    ValidateMemoryHotplug sampleBlockBytes sampleQuantityString arm64Spec =
        some [memoryLimitsCause, architectureCause] ∧
      architectureCause.Field = "spec.template.spec.architecture" :=
  architecture_scenario_two_violations sampleBlockBytes sampleQuantityString arm64Spec
    { Hugepages := none, Guest := some (NewQuantity sampleBlockBytes Format.BinarySI),
      MaxGuest := none }
    (NewQuantity sampleBlockBytes Format.BinarySI) (by decide) (by decide)
    ⟨by decide, by decide, by decide, by decide, by decide⟩ rfl rfl ⟨rfl, rfl⟩ rfl (by decide)

/-! ## Membership, order and category of the violations -/

theorem mem_maxGuestPart (B : Int) (qs : Quantity → String) (memory : Memory) (y : StatusCause)
    (h : y ∈ maxGuestPart B qs memory) : y = maxGuestAlignmentCause B qs := by
  unfold maxGuestPart at h
  split at h
  · exact ((mem_emitIf _ _ _).mp h).2
  · cases h

/-- Every violation of a returned result is the memory limit record or comes
from one of the later rules. -/
theorem mem_result (B : Int) (qs : Quantity → String) (d : DomainSpec) (memory : Memory)
    (a : Bool) (y : StatusCause) :
    y ∈ memoryLimitsCause :: (featurePart d ++ guestPart B qs memory ++
        maxGuestPart B qs memory ++ emitIf a architectureCause) ↔
      y = memoryLimitsCause ∨ y ∈ featurePart d ∨ y ∈ guestPart B qs memory ∨
        y ∈ maxGuestPart B qs memory ∨ (a = true ∧ y = architectureCause) := by
  simp only [List.mem_cons, List.mem_append, mem_emitIf]
  tauto

/-- Every record the validator can emit has the fixed category. -/
theorem type_of_mem_result (B : Int) (qs : Quantity → String) (d : DomainSpec)
    (memory : Memory) (a : Bool) (y : StatusCause)
    (h : y ∈ memoryLimitsCause :: (featurePart d ++ guestPart B qs memory ++
        maxGuestPart B qs memory ++ emitIf a architectureCause)) :
    y.Type_ = CauseTypeFieldValueInvalid := by
  rcases (mem_result B qs d memory a y).mp h with e | h | h | h | ⟨-, e⟩
  · rw [e]; rfl
  · rcases mem_featurePart d y h with e | e | e | e | e <;> rw [e] <;> rfl
  · rcases mem_guestPart B qs memory y h with e | e | e <;> rw [e] <;> rfl
  · rw [mem_maxGuestPart B qs memory y h]; rfl
  · rw [e]; rfl

/-- C14 (fixed category): every violation of a returned result has the type
`CauseTypeFieldValueInvalid`. -/
theorem every_cause_is_field_value_invalid (B : Int) (qs : Quantity → String)
    (vmSpec : VirtualMachineInstanceSpec) (r : List StatusCause)
    (h : ValidateMemoryHotplug B qs vmSpec = some r) :
    ∀ c ∈ r, c.Type_ = CauseTypeFieldValueInvalid := by
  obtain ⟨memory, -, rfl⟩ := ValidateMemoryHotplug_eq_some B qs vmSpec r h
  exact fun c hc => type_of_mem_result B qs _ memory _ c hc

theorem every_cause_is_field_value_invalid_witness :
    memoryLimitsCause.Type_ = CauseTypeFieldValueInvalid ∧
      guestGreaterThanMaxCause.Type_ = CauseTypeFieldValueInvalid :=
  ⟨every_cause_is_field_value_invalid 2 sampleQuantityString exceedingSpec
      [memoryLimitsCause, guestGreaterThanMaxCause] (by decide) memoryLimitsCause
      (by decide),
   every_cause_is_field_value_invalid 2 sampleQuantityString exceedingSpec
      [memoryLimitsCause, guestGreaterThanMaxCause] (by decide) guestGreaterThanMaxCause
      (by decide)⟩

theorem map_field_emitIf (c : Bool) (x : StatusCause) :
    List.Sublist ((emitIf c x).map StatusCause.Field) [x.Field] := by
  cases c
  · exact List.nil_sublist _
  · exact List.Sublist.refl _

theorem map_field_guestPart (B : Int) (qs : Quantity → String) (memory : Memory) :
    List.Sublist ((guestPart B qs memory).map StatusCause.Field) [guestField] := by
  unfold guestPart
  split
  · exact List.Sublist.refl _
  · split
    · split_ifs
      · exact List.Sublist.refl _
      · exact map_field_emitIf _ _
    · exact map_field_emitIf _ _

theorem map_field_maxGuestPart (B : Int) (qs : Quantity → String) (memory : Memory) :
    List.Sublist ((maxGuestPart B qs memory).map StatusCause.Field)
      ["spec.template.spec.domain.memory.maxGuest"] := by
  unfold maxGuestPart
  split
  · exact map_field_emitIf _ _
  · exact List.nil_sublist _

theorem map_field_featurePart (d : DomainSpec) :
    List.Sublist ((featurePart d).map StatusCause.Field)
      ["spec.template.spec.domain.cpu.realtime",
       "spec.template.spec.domain.cpu.numa.guestMappingPassthrough",
       "spec.template.spec.domain.launchSecurity",
       "spec.template.spec.domain.cpu.dedicatedCpuPlacement",
       "spec.template.spec.domain.memory.hugepages"] := by
  unfold featurePart
  simp only [List.map_append]
  exact ((((map_field_emitIf _ realtimeCause).append
    (map_field_emitIf _ guestMappingPassthroughCause)).append
    (map_field_emitIf _ launchSecurityCause)).append
    (map_field_emitIf _ dedicatedCPUCause)).append (map_field_emitIf _ hugepagesCause)

/-- The field paths of a returned result, in order, form a sublist of the rule
fields. -/
theorem map_field_result (B : Int) (qs : Quantity → String) (d : DomainSpec)
    (memory : Memory) (a : Bool) :
    List.Sublist
      ((memoryLimitsCause :: (featurePart d ++ guestPart B qs memory ++
        maxGuestPart B qs memory ++ emitIf a architectureCause)).map StatusCause.Field)
      ruleFields := by
  simp only [List.map_cons, List.map_append]
  exact List.Sublist.cons_cons _
    ((((map_field_featurePart d).append (map_field_guestPart B qs memory)).append
      (map_field_maxGuestPart B qs memory)).append (map_field_emitIf a architectureCause))

/-- C13 (result order): the field paths of a returned result, in the order of the
result, form a sublist of the nine rule fields in rule order, with no field
repeated; hence every field path starts with `spec.template.spec`. -/
theorem result_fields_follow_rule_order (B : Int) (qs : Quantity → String)
    (vmSpec : VirtualMachineInstanceSpec) (r : List StatusCause)
    (h : ValidateMemoryHotplug B qs vmSpec = some r) :
    List.Sublist (r.map StatusCause.Field) ruleFields ∧
      (r.map StatusCause.Field).Nodup ∧
      ∀ c ∈ r, "spec.template.spec".data <+: c.Field.data := by
  obtain ⟨memory, -, rfl⟩ := ValidateMemoryHotplug_eq_some B qs vmSpec r h
  have hsub := map_field_result B qs vmSpec.Domain memory
    (decide (vmSpec.Architecture ≠ "amd64"))
  refine ⟨hsub, List.Nodup.sublist hsub (by decide), fun c hc => ?_⟩
  have hmem : c.Field ∈ ruleFields := hsub.subset (List.mem_map_of_mem _ hc)
  revert hmem
  generalize c.Field = f
  revert f
  decide

theorem result_fields_follow_rule_order_witness :
    List.Sublist ([memoryLimitsCause, guestGreaterThanMaxCause].map StatusCause.Field)
        ruleFields ∧
      ([memoryLimitsCause, guestGreaterThanMaxCause].map StatusCause.Field).Nodup ∧
      ∀ c ∈ [memoryLimitsCause, guestGreaterThanMaxCause],
        "spec.template.spec".data <+: c.Field.data :=
  result_fields_follow_rule_order 2 sampleQuantityString exceedingSpec
    [memoryLimitsCause, guestGreaterThanMaxCause] (by decide)

theorem field_of_mem_guestPart (B : Int) (qs : Quantity → String) (memory : Memory)
    (y : StatusCause) (h : y ∈ guestPart B qs memory) : y.Field = guestField := by
  rcases mem_guestPart B qs memory y h with e | e | e <;> rw [e] <;> rfl

theorem field_of_mem_maxGuestPart (B : Int) (qs : Quantity → String) (memory : Memory)
    (y : StatusCause) (h : y ∈ maxGuestPart B qs memory) :
    y.Field = "spec.template.spec.domain.memory.maxGuest" := by
  rw [mem_maxGuestPart B qs memory y h]; rfl

/-- A record of rules 2 to 6 is in a returned result exactly when it is in the
contribution of those rules. -/
theorem mem_result_iff_mem_featurePart (B : Int) (qs : Quantity → String) (d : DomainSpec)
    (memory : Memory) (a : Bool) (y : StatusCause)
    (h1 : y ≠ memoryLimitsCause) (h7 : y.Field ≠ guestField)
    (h8 : y.Field ≠ "spec.template.spec.domain.memory.maxGuest")
    (h9 : y ≠ architectureCause) :
    y ∈ memoryLimitsCause :: (featurePart d ++ guestPart B qs memory ++
        maxGuestPart B qs memory ++ emitIf a architectureCause) ↔ y ∈ featurePart d := by
  rw [mem_result]
  constructor
  · rintro (e | h | h | h | ⟨-, e⟩)
    · exact absurd e h1
    · exact h
    · exact absurd (field_of_mem_guestPart B qs memory y h) h7
    · exact absurd (field_of_mem_maxGuestPart B qs memory y h) h8
    · exact absurd e h9
  · exact fun h => Or.inr (Or.inl h)

theorem realtimeSet_iff (d : DomainSpec) :
    realtimeSet d = true ↔ ∃ cpu, d.CPU = some cpu ∧ cpu.Realtime ≠ none := by
  unfold realtimeSet
  cases d.CPU with
  | none => simp
  | some cpu => cases h : cpu.Realtime <;> simp [h]

theorem passthroughSet_iff (d : DomainSpec) :
    passthroughSet d = true ↔
      ∃ cpu numa, d.CPU = some cpu ∧ cpu.NUMA = some numa ∧
        numa.GuestMappingPassthrough ≠ none := by
  unfold passthroughSet
  cases d.CPU with
  | none => simp
  | some cpu =>
    cases h : cpu.NUMA with
    | none => simp [h]
    | some numa => cases h2 : numa.GuestMappingPassthrough <;> simp [h, h2]

theorem dedicatedSet_iff (d : DomainSpec) :
    dedicatedSet d = true ↔ ∃ cpu, d.CPU = some cpu ∧ cpu.DedicatedCPUPlacement = true := by
  unfold dedicatedSet
  cases d.CPU with
  | none => simp
  | some cpu => simp

theorem hugepagesSet_iff (d : DomainSpec) :
    hugepagesSet d = true ↔ ∃ memory, d.Memory = some memory ∧ memory.Hugepages ≠ none := by
  unfold hugepagesSet
  cases d.Memory with
  | none => simp
  | some memory => cases h : memory.Hugepages <;> simp [h]

theorem mem_featurePart_iff (d : DomainSpec) (y : StatusCause) :
    y ∈ featurePart d ↔
      (realtimeSet d = true ∧ y = realtimeCause) ∨
      (passthroughSet d = true ∧ y = guestMappingPassthroughCause) ∨
      (d.LaunchSecurity.isSome = true ∧ y = launchSecurityCause) ∨
      (dedicatedSet d = true ∧ y = dedicatedCPUCause) ∨
      (hugepagesSet d = true ∧ y = hugepagesCause) := by
  simp only [featurePart, List.mem_append, mem_emitIf]
  tauto

/-- C12 (feature rules 2 to 6): a returned result contains the realtime
violation iff the CPU section is present with realtime set, the guest mapping
passthrough violation iff the CPU section and its NUMA section are present
with guestMappingPassthrough set, the encrypted VM violation iff launch
security is present, the dedicated CPU violation iff the CPU section is present
with DedicatedCPUPlacement true, and the hugepages violation iff the memory
section is present with hugepages set. -/
theorem feature_rules_fire_iff (B : Int) (qs : Quantity → String)
    (vmSpec : VirtualMachineInstanceSpec) (r : List StatusCause)
    (h : ValidateMemoryHotplug B qs vmSpec = some r) :
    (realtimeCause ∈ r ↔ ∃ cpu, vmSpec.Domain.CPU = some cpu ∧ cpu.Realtime ≠ none) ∧
    (guestMappingPassthroughCause ∈ r ↔
      ∃ cpu numa, vmSpec.Domain.CPU = some cpu ∧ cpu.NUMA = some numa ∧
        numa.GuestMappingPassthrough ≠ none) ∧
    (launchSecurityCause ∈ r ↔ vmSpec.Domain.LaunchSecurity ≠ none) ∧
    (dedicatedCPUCause ∈ r ↔
      ∃ cpu, vmSpec.Domain.CPU = some cpu ∧ cpu.DedicatedCPUPlacement = true) ∧
    (hugepagesCause ∈ r ↔
      ∃ memory, vmSpec.Domain.Memory = some memory ∧ memory.Hugepages ≠ none) := by
  obtain ⟨memory, -, rfl⟩ := ValidateMemoryHotplug_eq_some B qs vmSpec r h
  refine ⟨?_, ?_, ?_, ?_, ?_⟩
  · rw [mem_result_iff_mem_featurePart B qs _ _ _ _ (by decide) (by decide) (by decide)
      (by decide), mem_featurePart_iff, ← realtimeSet_iff]
    simp [realtimeCause, guestMappingPassthroughCause, launchSecurityCause, dedicatedCPUCause,
      hugepagesCause]
  · rw [mem_result_iff_mem_featurePart B qs _ _ _ _ (by decide) (by decide) (by decide)
      (by decide), mem_featurePart_iff, ← passthroughSet_iff]
    simp [realtimeCause, guestMappingPassthroughCause, launchSecurityCause, dedicatedCPUCause,
      hugepagesCause]
  · rw [mem_result_iff_mem_featurePart B qs _ _ _ _ (by decide) (by decide) (by decide)
      (by decide), mem_featurePart_iff]
    simp [realtimeCause, guestMappingPassthroughCause, launchSecurityCause, dedicatedCPUCause,
      hugepagesCause, Option.isSome_iff_ne_none]
  · rw [mem_result_iff_mem_featurePart B qs _ _ _ _ (by decide) (by decide) (by decide)
      (by decide), mem_featurePart_iff, ← dedicatedSet_iff]
    simp [realtimeCause, guestMappingPassthroughCause, launchSecurityCause, dedicatedCPUCause,
      hugepagesCause]
  · rw [mem_result_iff_mem_featurePart B qs _ _ _ _ (by decide) (by decide) (by decide)
      (by decide), mem_featurePart_iff, ← hugepagesSet_iff]
    simp [realtimeCause, guestMappingPassthroughCause, launchSecurityCause, dedicatedCPUCause,
      hugepagesCause]

theorem feature_rules_fire_iff_witness :
    (realtimeCause ∈ allNineCauses sampleBlockBytes sampleQuantityString ↔
      ∃ cpu, fullyViolatingSpec.Domain.CPU = some cpu ∧ cpu.Realtime ≠ none) ∧
    (guestMappingPassthroughCause ∈ allNineCauses sampleBlockBytes sampleQuantityString ↔
      ∃ cpu numa, fullyViolatingSpec.Domain.CPU = some cpu ∧ cpu.NUMA = some numa ∧
        numa.GuestMappingPassthrough ≠ none) ∧
    (launchSecurityCause ∈ allNineCauses sampleBlockBytes sampleQuantityString ↔
      fullyViolatingSpec.Domain.LaunchSecurity ≠ none) ∧
    (dedicatedCPUCause ∈ allNineCauses sampleBlockBytes sampleQuantityString ↔
      ∃ cpu, fullyViolatingSpec.Domain.CPU = some cpu ∧ cpu.DedicatedCPUPlacement = true) ∧
    (hugepagesCause ∈ allNineCauses sampleBlockBytes sampleQuantityString ↔
      ∃ memory, fullyViolatingSpec.Domain.Memory = some memory ∧ memory.Hugepages ≠ none) :=
  feature_rules_fire_iff sampleBlockBytes sampleQuantityString fullyViolatingSpec
    (allNineCauses sampleBlockBytes sampleQuantityString) (by decide)

/-- The architecture record is in a returned result exactly when rule 9 emitted
it. -/
theorem architectureCause_mem_result_iff (B : Int) (qs : Quantity → String) (d : DomainSpec)
    (memory : Memory) (a : Bool) :
    architectureCause ∈ memoryLimitsCause :: (featurePart d ++ guestPart B qs memory ++
        maxGuestPart B qs memory ++ emitIf a architectureCause) ↔ a = true := by
  rw [mem_result]
  constructor
  · rintro (e | h | h | h | ⟨ha, -⟩)
    · exact absurd e (by decide)
    · rcases mem_featurePart d _ h with e | e | e | e | e <;> exact absurd e (by decide)
    · exact absurd (field_of_mem_guestPart B qs memory _ h) (by decide)
    · exact absurd (field_of_mem_maxGuestPart B qs memory _ h) (by decide)
    · exact ha
  · exact fun ha => Or.inr (Or.inr (Or.inr (Or.inr ⟨ha, rfl⟩)))

/-- C11 (architecture rule): a returned result contains the architecture
violation if and only if the architecture of the spec differs from `amd64`,
and when present it is the last element of the result. -/
theorem architecture_rule (B : Int) (qs : Quantity → String)
    (vmSpec : VirtualMachineInstanceSpec) (r : List StatusCause)
    (h : ValidateMemoryHotplug B qs vmSpec = some r) :
    (architectureCause ∈ r ↔ vmSpec.Architecture ≠ "amd64") ∧
      (architectureCause ∈ r → r.getLast? = some architectureCause) := by
  obtain ⟨memory, -, rfl⟩ := ValidateMemoryHotplug_eq_some B qs vmSpec r h
  rw [architectureCause_mem_result_iff]
  refine ⟨by simp, fun ha => ?_⟩
  rw [ha, emitIf_true, ← List.cons_append]
  exact List.getLast?_concat _

theorem architecture_rule_witness :
    (architectureCause ∈ [memoryLimitsCause, architectureCause] ↔
        noArchitectureSpec.Architecture ≠ "amd64") ∧
      (architectureCause ∈ [memoryLimitsCause, architectureCause] →
        [memoryLimitsCause, architectureCause].getLast? = some architectureCause) :=
  architecture_rule sampleBlockBytes sampleQuantityString noArchitectureSpec
    [memoryLimitsCause, architectureCause] (by decide)

/-- C16 (rule 7b is strict and has priority over alignment): on a spec whose guest
and maxGuest are both set the validator returns a result that contains
"Guest memory is greater than the configured maxGuest memory" if and only if
guest is greater than maxGuest, as exact quantities; equal values do not
trigger it; and when guest is greater than maxGuest the guest alignment
violation is absent. -/
theorem greater_than_max_strict_with_priority (B : Int) (qs : Quantity → String)
    (vmSpec : VirtualMachineInstanceSpec) (memory : Memory) (guest maxGuest : Quantity)
    (hm : vmSpec.Domain.Memory = some memory) (hg : memory.Guest = some guest)
    (hmax : memory.MaxGuest = some maxGuest) :
    ∃ r, ValidateMemoryHotplug B qs vmSpec = some r ∧
      (guestGreaterThanMaxCause ∈ r ↔ guest.bytes > maxGuest.bytes) ∧
      (guest.bytes = maxGuest.bytes → guestGreaterThanMaxCause ∉ r) ∧
      (guest.bytes > maxGuest.bytes → guestAlignmentCause B qs ∉ r) := by
  refine ⟨_, ValidateMemoryHotplug_of_memory B qs vmSpec memory hm, ?_⟩
  rw [mem_result_iff_mem_guestPart B qs _ _ _ _ rfl,
    mem_result_iff_mem_guestPart B qs _ _ _ _ rfl]
  have hne := guestAlignment_ne_greaterThanMax B qs
  have hiff : guestGreaterThanMaxCause ∈ guestPart B qs memory ↔
      guest.bytes > maxGuest.bytes := by
    unfold guestPart
    rw [hg, hmax]
    by_cases hgt : guest.bytes > maxGuest.bytes
    · simp [hgt]
    · simp only [hgt, if_false, mem_emitIf, iff_false, not_and]
      exact fun _ e => hne e.symm
  refine ⟨hiff, fun heq hin => ?_, fun hgt => ?_⟩
  · have := hiff.mp hin
    rw [heq] at this
    exact lt_irrefl _ this
  · unfold guestPart
    rw [hg, hmax]
    simp only [hgt, if_true, List.mem_singleton]
    exact hne

theorem greater_than_max_strict_with_priority_witness :
    ∃ r, ValidateMemoryHotplug 2 sampleQuantityString exceedingSpec = some r ∧
      (guestGreaterThanMaxCause ∈ r ↔ ((3 : Int) : ℚ) > ((2 : Int) : ℚ)) ∧
      (((3 : Int) : ℚ) = ((2 : Int) : ℚ) → guestGreaterThanMaxCause ∉ r) ∧
      (((3 : Int) : ℚ) > ((2 : Int) : ℚ) → guestAlignmentCause 2 sampleQuantityString ∉ r) :=
  greater_than_max_strict_with_priority 2 sampleQuantityString exceedingSpec
    { Hugepages := none, Guest := some (NewQuantity 3 Format.BinarySI),
      MaxGuest := some (NewQuantity 2 Format.BinarySI) }
    (NewQuantity 3 Format.BinarySI) (NewQuantity 2 Format.BinarySI) rfl rfl rfl

theorem countTrue_le (l : List Bool) : countTrue l ≤ l.length :=
  List.length_filter_le _ _

theorem length_maxGuestPart_le (B : Int) (qs : Quantity → String) (memory : Memory) :
    (maxGuestPart B qs memory).length ≤ 1 := by
  unfold maxGuestPart
  split
  · rw [length_emitIf]; split_ifs <;> omega
  · simp

/-- A returned result has at most nine violations. -/
theorem length_result_le (B : Int) (qs : Quantity → String) (d : DomainSpec)
    (memory : Memory) (a : Bool) :
    (memoryLimitsCause :: (featurePart d ++ guestPart B qs memory ++
        maxGuestPart B qs memory ++ emitIf a architectureCause)).length ≤ 9 := by
  have h1 : (featurePart d).length ≤ 5 := by
    rw [length_featurePart]; exact countTrue_le _
  have h2 := length_guestPart_le B qs memory
  have h3 := length_maxGuestPart_le B qs memory
  have h4 : (emitIf a architectureCause).length ≤ 1 := by
    rw [length_emitIf]; split_ifs <;> omega
  simp only [List.length_cons, List.length_append]
  omega

/-- The spec that violates every rule yields all nine violations when one byte
is not a multiple of the block size. -/
theorem ValidateMemoryHotplug_fullyViolatingSpec (B : Int) (qs : Quantity → String)
    (hB : 1 < B) :
    ValidateMemoryHotplug B qs fullyViolatingSpec = some (allNineCauses B qs) := by
  have hmod : Int.tmod 1 B ≠ 0 := by
    rw [tmod_ne_zero_iff, Int.emod_eq_of_lt (by omega) hB]
    omega
  rw [ValidateMemoryHotplug_of_memory B qs fullyViolatingSpec
    { Hugepages := some { PageSize := "2Mi" }, Guest := none,
      MaxGuest := some (NewQuantity 1 Format.BinarySI) } rfl]
  have hf : featurePart fullyViolatingSpec.Domain =
      [realtimeCause, guestMappingPassthroughCause, launchSecurityCause, dedicatedCPUCause,
        hugepagesCause] := by decide
  have ha : decide (fullyViolatingSpec.Architecture ≠ "amd64") = true := by decide
  rw [hf, ha]
  simp [guestPart, maxGuestPart, NewQuantity, Quantity.Value, emitIf, hmod, allNineCauses]

/-- C17 (bounded output): every returned result has at most nine violations, and
for a block size above one byte the spec that violates every rule at once gets
exactly nine. -/
theorem result_length_at_most_nine (B : Int) (qs : Quantity → String) (hB : 1 < B) :
    (∀ (vmSpec : VirtualMachineInstanceSpec) (r : List StatusCause),
      ValidateMemoryHotplug B qs vmSpec = some r → r.length ≤ 9) ∧
    (∃ r, ValidateMemoryHotplug B qs fullyViolatingSpec = some r ∧ r.length = 9) := by
  refine ⟨fun vmSpec r h => ?_, _, ValidateMemoryHotplug_fullyViolatingSpec B qs hB, rfl⟩
  obtain ⟨memory, -, rfl⟩ := ValidateMemoryHotplug_eq_some B qs vmSpec r h
  exact length_result_le B qs _ memory _

theorem result_length_at_most_nine_witness :
    (allNineCauses sampleBlockBytes sampleQuantityString).length ≤ 9 ∧
      ∃ r, ValidateMemoryHotplug sampleBlockBytes sampleQuantityString fullyViolatingSpec =
        some r ∧ r.length = 9 :=
  ⟨(result_length_at_most_nine sampleBlockBytes sampleQuantityString (by decide)).1
      fullyViolatingSpec (allNineCauses sampleBlockBytes sampleQuantityString) (by decide),
   (result_length_at_most_nine sampleBlockBytes sampleQuantityString (by decide)).2⟩

end Hotplug
